import Mathlib

/-
Shallow embedding of src/lambda/lambda_function.py (an Alexa skill that
forwards user questions to a chat-completion API).

External effects are modelled as explicit oracles:
  - the HTTP call made by `requests.post` together with the parsing of its
    JSON body is a `NetResult` value supplied as input;
  - the construction of the APL RenderDocumentDirective by the host SDK is a
    `BuildOutcome` value (it can in principle raise, which the source catches);
  - the device context reached through
    `handler_input.request_envelope.context.system.device.supported_interfaces`
    is a `HandlerInput` value: `none` means the attribute chain raises
    (malformed context), `some attrs` is the set of attribute names of the
    supported-interfaces object probed by `hasattr`.

Python exceptions are modelled with `Except`: a function body that the source
wraps in `try`/`except` is embedded as a `_try` function returning `Except`,
and the catching function pattern-matches on it.
-/

namespace AlexaGpt

/-- A chat message in the completion request body: a role and its content. -/
structure Message where
  role : String
  content : String
deriving DecidableEq, Repr

/-- Python exception values relevant to this module: `ValueError` raised by
`get_api_key`, and the transport or parsing exceptions of the network call. -/
inductive PyError
  | valueError (msg : String)
  | requestError (msg : String)
deriving DecidableEq, Repr

/-- Outcome of `requests.post` plus response parsing, supplied as an oracle:
`ok_resp content` is a response with `res.ok` true, where `content` is the
parsed `choices[0].message.content` (`none` when parsing raises);
`err_resp` is a response with `res.ok` false; `exn` is an exception raised by
the transport itself (connection error, timeout). -/
inductive NetResult
  | ok_resp (content : Option String)
  | err_resp (status_code : Nat) (text : String)
  | exn (msg : String)
deriving DecidableEq, Repr

/-- Source lines 16-20: `get_api_key` raises `ValueError` when the configured
key is falsy (empty) or equal to the placeholder `"YOUR_API_KEY"`. -/
def get_api_key (OPENAI_API_KEY : String) : Except PyError String :=
  if OPENAI_API_KEY = "" ∨ OPENAI_API_KEY = "YOUR_API_KEY" then
    Except.error (PyError.valueError "OpenAI API key not configured")
  else
    Except.ok OPENAI_API_KEY

/-- Source line 139: the fixed system instruction. -/
def systemPrompt : String :=
  "You are a helpful assistant. Provide clear, concise answers. Keep responses under 50 words."

/-- Source line 140: the Python slice `chat_history[-5:]`, the last
`min (length, 5)` turns of the history. -/
def lastFiveTurns (chat_history : List (String × String)) : List (String × String) :=
  chat_history.drop (chat_history.length - 5)

/-- Source lines 139-143: the message list built by `generate_gpt_response` —
the system message, then the loop appending a user and an assistant message
for each turn of `chat_history[-5:]`, then the new question. -/
def buildMessages (chat_history : List (String × String)) (new_question : String) :
    List Message :=
  (lastFiveTurns chat_history).foldl
    (fun messages t =>
      messages ++ [⟨"user", t.1⟩, ⟨"assistant", t.2⟩])
    [⟨"system", systemPrompt⟩]
  ++ [⟨"user", new_question⟩]

/-- Source lines 131-155: the body of the `try` block of
`generate_gpt_response`. It calls `get_api_key` (whose `ValueError`
propagates), then performs the network call: on `res.ok` it returns the
trimmed parsed content (a parsing failure raises), on a non-ok response it
returns the fixed connection-trouble string, and a transport exception
propagates. -/
def generate_gpt_response_try (apiKey : String) (net : NetResult)
    (chat_history : List (String × String)) (new_question : String) :
    Except PyError String :=
  match get_api_key apiKey with
  | Except.error e => Except.error e
  | Except.ok _ =>
    match net with
    | NetResult.ok_resp (some content) => Except.ok content.trim
    | NetResult.ok_resp none => Except.error (PyError.requestError "response parsing failed")
    | NetResult.err_resp _ _ =>
        Except.ok "I'm having trouble connecting right now. Please try again."
    | NetResult.exn m => Except.error (PyError.requestError m)

/-- Source lines 130-159: `generate_gpt_response` — the `try` body with the
catch-all `except` that turns any exception (including the configuration
`ValueError`) into the fixed processing-error string. -/
def generate_gpt_response (apiKey : String) (net : NetResult)
    (chat_history : List (String × String)) (new_question : String) : String :=
  match generate_gpt_response_try apiKey net chat_history new_question with
  | Except.ok s => s
  | Except.error _ => "I encountered an error processing your request."

/-- Whether the network request of line 147 is reached: the only statement
before `requests.post` that can raise is `get_api_key`. -/
def attempts_network (apiKey : String) : Bool :=
  match get_api_key apiKey with
  | Except.ok _ => true
  | Except.error _ => false

/-- Device context as seen by `supports_apl`: `none` when the attribute chain
`request_envelope.context.system.device.supported_interfaces` raises
(missing or malformed context), `some attrs` when it yields an object whose
attribute names are `attrs`. -/
structure HandlerInput where
  supported_interfaces : Option (List String)
deriving DecidableEq, Repr

/-- Source lines 22-30: `supports_apl` — `hasattr(supported_interfaces,
'alexa_presentation_apl')`, with any exception caught and turned into
`false`. Total by construction, mirroring that the Python never raises. -/
def supports_apl (handler_input : HandlerInput) : Bool :=
  match handler_input.supported_interfaces with
  | none => false
  | some attrs => attrs.contains "alexa_presentation_apl"

/-- Oracle for the directive-construction body of `create_apl_directive`
(document dict, `json.dumps`, `RenderDocumentDirective` constructor): `ok`
when it completes, `raises` when some step raises. -/
inductive BuildOutcome
  | ok
  | raises
deriving DecidableEq, Repr

/-- The data carried by the directive built at source lines 118-122: the
fixed token and the three text fields bound into the fixed APL document. -/
structure RenderDocumentDirective where
  token : String
  titleText : String
  primaryText : String
  secondaryText : String
deriving DecidableEq, Repr

/-- Source lines 32-128: `create_apl_directive` — inside a `try`, probes
`supports_apl`; when supported it builds the directive (secondary text
defaulting to the empty string via `secondary_text or ""`), when unsupported
it returns `None`; any exception during construction is caught and becomes
`None`. -/
def create_apl_directive (handler_input : HandlerInput) (build : BuildOutcome)
    (title primary_text : String) (secondary_text : Option String) :
    Option RenderDocumentDirective :=
  if supports_apl handler_input then
    match build with
    | BuildOutcome.ok =>
        some ⟨"token", title, primary_text, secondary_text.getD ""⟩
    | BuildOutcome.raises => none
  else
    none

/-- An Alexa card: both `StandardCard(title, text)` and
`SimpleCard(title, content)` carry a title and a body text. -/
structure Card where
  title : String
  text : String
deriving DecidableEq, Repr

/-- Modelled from the spec: the OutboundResponse assembled by the host SDK
response builder (not part of this repository) — spoken text, optional
re-prompt, optional card, the end-session flag, and visual directives.
Fields of a fresh builder are unset. -/
structure Response where
  outputSpeech : Option String
  reprompt : Option String
  card : Option Card
  shouldEndSession : Option Bool
  directives : List RenderDocumentDirective
deriving DecidableEq, Repr

/-- Modelled from the spec: a fresh response builder with every field unset. -/
def rb_init : Response := ⟨none, none, none, none, []⟩

/-- Modelled from the spec: `rb.speak(s)` sets the spoken text. -/
def speak (r : Response) (s : String) : Response :=
  { r with outputSpeech := some s }

/-- Modelled from the spec: `rb.ask(s)` installs the re-prompt issued when
the session continues, and marks the session as continuing
(end-session false). -/
def ask (r : Response) (s : String) : Response :=
  { r with reprompt := some s, shouldEndSession := some false }

/-- Modelled from the spec: `rb.set_card(c)` attaches the card. -/
def set_card (r : Response) (c : Card) : Response :=
  { r with card := some c }

/-- Modelled from the spec: `rb.set_should_end_session(b)` sets the
end-session flag explicitly. -/
def set_should_end_session (r : Response) (b : Bool) : Response :=
  { r with shouldEndSession := some b }

/-- Modelled from the spec: `rb.add_directive(d)` appends a directive. -/
def add_directive (r : Response) (d : RenderDocumentDirective) : Response :=
  { r with directives := r.directives ++ [d] }

/-- Per-session state: the session-attribute store restricted to the single
key `chat_history` this module reads and writes; `none` means the key is
absent. -/
structure Session where
  chat_history : Option (List (String × String))
deriving DecidableEq, Repr

/-- Ambient inputs of one handler invocation: the device context, the
configured API key, and the oracles for the network call and the APL
directive construction. -/
structure Env where
  handler_input : HandlerInput
  apiKey : String
  aplBuild : BuildOutcome
deriving DecidableEq, Repr

/-- The block repeated in every handler: `if supports_apl(handler_input):`
build the directive and `rb.add_directive` it when construction yielded
one. -/
def add_apl_if_supported (env : Env) (r : Response)
    (title primary_text : String) (secondary_text : Option String) : Response :=
  if supports_apl env.handler_input then
    match create_apl_directive env.handler_input env.aplBuild title primary_text
        secondary_text with
    | some d => add_directive r d
    | none => r
  else
    r

/-- Inbound events, one per handler of the dispatch table; `gptQuery` carries
the `query` slot value and the network oracle of its completion call, and
`caughtException` is the route the dispatcher takes to
`CatchAllExceptionHandler`. -/
inductive Event
  | launch
  | gptQuery (query : String) (net : NetResult)
  | yes
  | no
  | help
  | fallback
  | cancelOrStop
  | sessionEnded
  | caughtException
deriving DecidableEq, Repr

namespace LaunchRequestHandler

/-- Source lines 165-196: greet, reset `chat_history` to `[]`, speak and ask
the greeting, set the welcome StandardCard, and add the APL directive on
capable devices. -/
def handle (env : Env) (s : Session) : Session × Response :=
  let speak_output := "Chat G.P.T. mode activated"
  let s := { s with chat_history := some [] }
  let rb := ask (speak rb_init speak_output) speak_output
  let rb := set_card rb
    ⟨"Welcome to ChatGPT",
      "ChatGPT Mode is now active.\n\nYou can ask me any question!\n\nI'm ready to help you find answers."⟩
  let rb := add_apl_if_supported env rb "Welcome to ChatGPT"
    "ChatGPT Mode is now active.\n\nYou can ask me any question!"
    (some "I'm ready to help you find answers.")
  (s, rb)

end LaunchRequestHandler

namespace GptQueryIntentHandler

/-- Source lines 202-240: read the `query` slot, `setdefault` the history,
call `generate_gpt_response`, append the turn, then speak, ask, set the
StandardCard and add the APL directive on capable devices. -/
def handle (env : Env) (s : Session) (query : String) (net : NetResult) :
    Session × Response :=
  let chat_history := s.chat_history.getD []
  let response := generate_gpt_response env.apiKey net chat_history query
  let s := { s with chat_history := some (chat_history ++ [(query, response)]) }
  let speak_output := response ++ " Would you like to ask another question?"
  let rb := ask (speak rb_init speak_output) "Would you like to ask another question?"
  let rb := set_card rb
    ⟨"ChatGPT Response",
      "Question:\n" ++ query ++ "\n\nAnswer:\n" ++ response ++
        "\n\nWould you like to ask another question?"⟩
  let rb := add_apl_if_supported env rb "ChatGPT Response"
    ("Question:\n" ++ query ++ "\n\nAnswer:\n" ++ response)
    (some "Would you like to ask another question?")
  (s, rb)

end GptQueryIntentHandler

namespace YesIntentHandler

/-- Source lines 246-275: prompt for the next question. -/
def handle (env : Env) (s : Session) : Session × Response :=
  let speak_output := "What would you like to know?"
  let rb := ask (speak rb_init speak_output) speak_output
  let rb := set_card rb ⟨"Ask Another Question", "What would you like to know?"⟩
  let rb := add_apl_if_supported env rb "Ask Another Question"
    "What would you like to know?" (some "I'm ready to help!")
  (s, rb)

end YesIntentHandler

namespace NoIntentHandler

/-- Source lines 281-310: farewell; sets the end-session flag, no re-prompt. -/
def handle (env : Env) (s : Session) : Session × Response :=
  let speak_output := "Thanks for chatting! Goodbye."
  let rb := set_should_end_session (speak rb_init speak_output) true
  let rb := set_card rb ⟨"Goodbye", "Thanks for chatting! Have a great day!"⟩
  let rb := add_apl_if_supported env rb "Goodbye" "Thanks for chatting!"
    (some "Have a great day!")
  (s, rb)

end NoIntentHandler

namespace HelpIntentHandler

/-- Source lines 316-342: explain the capability. -/
def handle (env : Env) (s : Session) : Session × Response :=
  let speak_output :=
    "You can ask me any question, and I'll use ChatGPT to provide an answer. Just speak your question clearly."
  let rb := ask (speak rb_init speak_output) speak_output
  let rb := set_card rb ⟨"Help with ChatGPT", speak_output⟩
  let rb := add_apl_if_supported env rb "How to Use ChatGPT"
    "You can ask me any question, and I'll use ChatGPT to provide an answer."
    (some "Just speak your question clearly.")
  (s, rb)

end HelpIntentHandler

namespace CancelOrStopIntentHandler

/-- Source lines 351-378: farewell; sets the end-session flag, no re-prompt. -/
def handle (env : Env) (s : Session) : Session × Response :=
  let speak_output := "Leaving Chat G.P.T. mode"
  let rb := set_should_end_session (speak rb_init speak_output) true
  let rb := set_card rb ⟨"Goodbye", "Leaving ChatGPT Mode. Thanks for chatting!"⟩
  let rb := add_apl_if_supported env rb "Goodbye" "Leaving ChatGPT Mode"
    (some "Thanks for chatting!")
  (s, rb)

end CancelOrStopIntentHandler

namespace FallbackIntentHandler

/-- Source lines 384-410: apologize and restate the capability. -/
def handle (env : Env) (s : Session) : Session × Response :=
  let speak_output :=
    "I'm not sure what you're asking. You can ask me any question, and I'll try to provide an answer using ChatGPT."
  let rb := ask (speak rb_init speak_output) speak_output
  let rb := set_card rb ⟨"I Didn't Understand", speak_output⟩
  let rb := add_apl_if_supported env rb "I Didn't Understand"
    "I'm not sure what you're asking."
    (some "You can ask me any question, and I'll try to provide an answer using ChatGPT.")
  (s, rb)

end FallbackIntentHandler

namespace SessionEndedRequestHandler

/-- Source lines 416-427: log the reason and return the untouched builder
response — no speech, no card, no directive, no flag set. -/
def handle (_env : Env) (s : Session) : Session × Response :=
  (s, rb_init)

end SessionEndedRequestHandler

namespace CatchAllExceptionHandler

/-- Source lines 433-459: generic apology on any unhandled exception. -/
def handle (env : Env) (s : Session) : Session × Response :=
  let speak_output := "Sorry, I had trouble doing what you asked. Please try again."
  let rb := ask (speak rb_init speak_output) speak_output
  let rb := set_card rb
    ⟨"Error Occurred", "Sorry, I had trouble doing what you asked. Please try again."⟩
  let rb := add_apl_if_supported env rb "Error Occurred"
    "Sorry, I had trouble doing what you asked." (some "Please try again.")
  (s, rb)

end CatchAllExceptionHandler

/-- The dispatch table of source lines 465-475: route each event to its
handler. -/
def handleEvent (env : Env) (s : Session) : Event → Session × Response
  | Event.launch => LaunchRequestHandler.handle env s
  | Event.gptQuery query net => GptQueryIntentHandler.handle env s query net
  | Event.yes => YesIntentHandler.handle env s
  | Event.no => NoIntentHandler.handle env s
  | Event.help => HelpIntentHandler.handle env s
  | Event.fallback => FallbackIntentHandler.handle env s
  | Event.cancelOrStop => CancelOrStopIntentHandler.handle env s
  | Event.sessionEnded => SessionEndedRequestHandler.handle env s
  | Event.caughtException => CatchAllExceptionHandler.handle env s

/-- Fold a sequence of events through the dispatch table, keeping the session
state. -/
def runEvents (env : Env) (s : Session) : List Event → Session
  | [] => s
  | e :: es => runEvents env (handleEvent env s e).1 es

/-- Transliteration of the specification's description of the completion
request, for comparison with `buildMessages`: one fixed system-instruction
message, then for each of the last `min (length h) 5` turns of `h` in
original (oldest-to-newest) order a user message with the turn's question
followed by an assistant message with the turn's answer, then one final user
message containing the new question. -/
def specMessages (h : List (String × String)) (q : String) : List Message :=
  [⟨"system", systemPrompt⟩]
    ++ ((h.drop (h.length - min h.length 5)).map
        (fun t => [Message.mk "user" t.1, Message.mk "assistant" t.2])).flatten
    ++ [⟨"user", q⟩]

/-- The history produced by a run of question events starting from history
`h`: each event appends the pair of its query and whatever
`generate_gpt_response` returned for the history accumulated so far. -/
def questionFold (env : Env) (h : List (String × String)) :
    List (String × NetResult) → List (String × String)
  | [] => h
  | (q, net) :: rest =>
      questionFold env (h ++ [(q, generate_gpt_response env.apiKey net h q)]) rest

theorem foldl_append_flatten {α β : Type} (f : α → List β) :
    ∀ (l : List α) (init : List β),
      l.foldl (fun ms t => ms ++ f t) init = init ++ (l.map f).flatten := by
  intro l
  induction l with
  | nil => intro init; simp
  | cons a l ih => intro init; simp [ih, List.append_assoc]

theorem add_apl_shouldEndSession (env : Env) (r : Response)
    (title primary_text : String) (secondary_text : Option String) :
    (add_apl_if_supported env r title primary_text secondary_text).shouldEndSession
      = r.shouldEndSession := by
  unfold add_apl_if_supported
  split
  · split <;> rfl
  · rfl

theorem add_apl_card (env : Env) (r : Response)
    (title primary_text : String) (secondary_text : Option String) :
    (add_apl_if_supported env r title primary_text secondary_text).card = r.card := by
  unfold add_apl_if_supported
  split
  · split <;> rfl
  · rfl

theorem add_apl_outputSpeech (env : Env) (r : Response)
    (title primary_text : String) (secondary_text : Option String) :
    (add_apl_if_supported env r title primary_text secondary_text).outputSpeech
      = r.outputSpeech := by
  unfold add_apl_if_supported
  split
  · split <;> rfl
  · rfl

theorem runEvents_gptQueries (env : Env) :
    ∀ (qs : List (String × NetResult)) (h : List (String × String)),
      (runEvents env ⟨some h⟩ (qs.map fun p => Event.gptQuery p.1 p.2)).chat_history
        = some (questionFold env h qs) := by
  intro qs
  induction qs with
  | nil => intro h; rfl
  | cons p rest ih =>
      obtain ⟨q, net⟩ := p
      intro h
      simpa [runEvents, handleEvent, GptQueryIntentHandler.handle, questionFold]
        using ih (h ++ [(q, generate_gpt_response env.apiKey net h q)])

theorem questionFold_length (env : Env) :
    ∀ (qs : List (String × NetResult)) (h : List (String × String)),
      (questionFold env h qs).length = h.length + qs.length := by
  intro qs
  induction qs with
  | nil => intro h; simp [questionFold]
  | cons p rest ih =>
      obtain ⟨q, net⟩ := p
      intro h
      simp [questionFold, ih]
      omega

theorem questionFold_fst (env : Env) :
    ∀ (qs : List (String × NetResult)) (h : List (String × String)),
      (questionFold env h qs).map Prod.fst
        = h.map Prod.fst ++ qs.map Prod.fst := by
  intro qs
  induction qs with
  | nil => intro h; simp [questionFold]
  | cons p rest ih =>
      obtain ⟨q, net⟩ := p
      intro h
      simp [questionFold, ih]

theorem assistant_mem_buildMessages (h : List (String × String)) (q a q2 : String) :
    Message.mk "assistant" a ∈ buildMessages (h ++ [(q, a)]) q2 := by
  unfold buildMessages
  rw [foldl_append_flatten]
  have hmem : (q, a) ∈ lastFiveTurns (h ++ [(q, a)]) := by
    unfold lastFiveTurns
    have hlen : (h ++ [(q, a)]).length - 5 ≤ h.length := by
      simp only [List.length_append, List.length_singleton]
      omega
    rw [List.drop_append_of_le_length hlen]
    exact List.mem_append_right _ (by simp)
  refine List.mem_append_left _ (List.mem_append_right _ ?_)
  rw [List.mem_flatten]
  exact ⟨[Message.mk "user" q, Message.mk "assistant" a],
    List.mem_map_of_mem _ hmem, by simp⟩

/-- C1 (amended): when the API credential is empty or equal to the
placeholder, `get_api_key` raises the configuration `ValueError` inside the
`try` of `generate_gpt_response` and no network request is attempted; the
catch-all `except` swallows that error, so `generate_gpt_response` itself
does not raise but returns the fixed processing-error per-turn string. -/
theorem C1_config_error_swallowed (key : String)
    (hk : key = "" ∨ key = "YOUR_API_KEY") (net : NetResult)
    (h : List (String × String)) (q : String) :
    generate_gpt_response_try key net h q
        = Except.error (PyError.valueError "OpenAI API key not configured")
    ∧ attempts_network key = false
    ∧ generate_gpt_response key net h q
        = "I encountered an error processing your request." := by
  have hkey : get_api_key key
      = Except.error (PyError.valueError "OpenAI API key not configured") := by
    unfold get_api_key
    rw [if_pos hk]
  refine ⟨?_, ?_, ?_⟩
  · unfold generate_gpt_response_try
    rw [hkey]
  · unfold attempts_network
    rw [hkey]
  · unfold generate_gpt_response generate_gpt_response_try
    rw [hkey]

theorem C1_config_error_swallowed_witness :
    generate_gpt_response_try "" (NetResult.ok_resp (some "Paris")) [] "hi"
        = Except.error (PyError.valueError "OpenAI API key not configured")
    ∧ attempts_network "" = false
    ∧ generate_gpt_response "" (NetResult.ok_resp (some "Paris")) [] "hi"
        = "I encountered an error processing your request." :=
  C1_config_error_swallowed "" (Or.inl rfl) (NetResult.ok_resp (some "Paris")) [] "hi"

/-- C1 (counterexample to the claim as stated): with the placeholder
credential, a history and a question, invoking `generate_gpt_response` does
not propagate a configuration error — it returns exactly the degraded
per-turn processing-error message. -/
theorem C1_counterexample :
    generate_gpt_response "YOUR_API_KEY" (NetResult.ok_resp (some "Paris"))
        [("q0", "a0")] "What is the capital of France?"
      = "I encountered an error processing your request." := by rfl

/-- C2: the message list built by the Completion Client is exactly one fixed
system-instruction message, then for each of the last `min (|h|, 5)` turns of
`h` in original order a user message with the turn's question followed by an
assistant message with the turn's answer, then one final user message with
the new question; older turns are not included. -/
theorem C2_message_list (h : List (String × String)) (q : String) :
    buildMessages h q = specMessages h q := by
  unfold buildMessages specMessages lastFiveTurns
  rw [foldl_append_flatten]
  have hmin : h.length - min h.length 5 = h.length - 5 := by omega
  rw [hmin]

/-- C4: for a valid credential, every history and question, a non-success
HTTP status makes `generate_gpt_response` return exactly the fixed
connection-trouble string; no exception escapes the `try` body on this path
(it yields `Except.ok`), so the client does not raise. -/
theorem C4_http_failure_degraded (key : String)
    (hk : ¬(key = "" ∨ key = "YOUR_API_KEY")) (status : Nat) (body : String)
    (h : List (String × String)) (q : String) :
    generate_gpt_response key (NetResult.err_resp status body) h q
        = "I'm having trouble connecting right now. Please try again."
    ∧ generate_gpt_response_try key (NetResult.err_resp status body) h q
        = Except.ok "I'm having trouble connecting right now. Please try again." := by
  have hkey : get_api_key key = Except.ok key := by
    unfold get_api_key
    rw [if_neg hk]
  constructor
  · unfold generate_gpt_response generate_gpt_response_try
    rw [hkey]
  · unfold generate_gpt_response_try
    rw [hkey]

theorem C4_http_failure_degraded_witness :
    generate_gpt_response "sk-test-123" (NetResult.err_resp 500 "server error")
        [("a", "b")] "hello"
        = "I'm having trouble connecting right now. Please try again."
    ∧ generate_gpt_response_try "sk-test-123" (NetResult.err_resp 500 "server error")
        [("a", "b")] "hello"
        = Except.ok "I'm having trouble connecting right now. Please try again." :=
  C4_http_failure_degraded "sk-test-123" (by decide) 500 "server error" [("a", "b")] "hello"

/-- C5: for a valid credential, every history and question, a transport
exception (and likewise a response-parsing failure) makes
`generate_gpt_response` return exactly the fixed processing-error string
without raising, and that string is distinct from the connection-trouble
string of the non-success HTTP case. -/
theorem C5_exception_degraded (key : String)
    (hk : ¬(key = "" ∨ key = "YOUR_API_KEY")) (m : String)
    (h : List (String × String)) (q : String) :
    generate_gpt_response key (NetResult.exn m) h q
        = "I encountered an error processing your request."
    ∧ generate_gpt_response key (NetResult.ok_resp none) h q
        = "I encountered an error processing your request."
    ∧ ("I encountered an error processing your request." : String)
        ≠ "I'm having trouble connecting right now. Please try again." := by
  have hkey : get_api_key key = Except.ok key := by
    unfold get_api_key
    rw [if_neg hk]
  refine ⟨?_, ?_, by decide⟩
  · unfold generate_gpt_response generate_gpt_response_try
    rw [hkey]
  · unfold generate_gpt_response generate_gpt_response_try
    rw [hkey]

theorem C5_exception_degraded_witness :
    generate_gpt_response "sk-test-123" (NetResult.exn "timeout") [("a", "b")] "hello"
        = "I encountered an error processing your request."
    ∧ generate_gpt_response "sk-test-123" (NetResult.ok_resp none) [("a", "b")] "hello"
        = "I encountered an error processing your request."
    ∧ ("I encountered an error processing your request." : String)
        ≠ "I'm having trouble connecting right now. Please try again." :=
  C5_exception_degraded "sk-test-123" (by decide) "timeout" [("a", "b")] "hello"

/-- C6: `supports_apl` is total (never raises), returns true exactly when the
context's supported-interfaces attribute set contains the APL capability, and
returns false on a malformed context whose supported-interfaces chain is
missing. -/
theorem C6_supports_apl_exact (hi : HandlerInput) :
    (supports_apl hi = true ↔
      ∃ attrs, hi.supported_interfaces = some attrs
        ∧ "alexa_presentation_apl" ∈ attrs)
    ∧ (hi.supported_interfaces = none → supports_apl hi = false) := by
  obtain ⟨si⟩ := hi
  cases si with
  | none => simp [supports_apl]
  | some attrs => simp [supports_apl]

theorem C6_supports_apl_exact_witness :
    supports_apl ⟨none⟩ = false
    ∧ supports_apl ⟨some ["alexa_presentation_apl"]⟩ = true :=
  ⟨(C6_supports_apl_exact ⟨none⟩).2 rfl,
   (C6_supports_apl_exact ⟨some ["alexa_presentation_apl"]⟩).1.mpr
     ⟨["alexa_presentation_apl"], rfl, by simp⟩⟩

/-- C7: `create_apl_directive` returns nothing (not an error) whenever
`supports_apl` reports no support, and an exception raised during directive
construction is caught and converted to nothing, never propagating. -/
theorem C7_apl_directive_soft (hi : HandlerInput) (b : BuildOutcome)
    (title primary_text : String) (secondary_text : Option String) :
    (supports_apl hi = false →
      create_apl_directive hi b title primary_text secondary_text = none)
    ∧ create_apl_directive hi BuildOutcome.raises title primary_text secondary_text
        = none := by
  constructor
  · intro hfalse
    unfold create_apl_directive
    rw [hfalse]
    rfl
  · unfold create_apl_directive
    split <;> rfl

theorem C7_apl_directive_soft_witness :
    create_apl_directive ⟨none⟩ BuildOutcome.ok "t" "p" (some "s") = none
    ∧ create_apl_directive ⟨some ["alexa_presentation_apl"]⟩ BuildOutcome.raises
        "t" "p" (some "s") = none :=
  ⟨(C7_apl_directive_soft ⟨none⟩ BuildOutcome.ok "t" "p" (some "s")).1 rfl,
   (C7_apl_directive_soft ⟨some ["alexa_presentation_apl"]⟩ BuildOutcome.ok
     "t" "p" (some "s")).2⟩

/-- C3: after a Launch event `chat_history` is the empty sequence; after any
sequence of N subsequent question events it has exactly N entries, each the
pair of the question and the reply returned for it, appended strictly in
arrival order; and every event other than Launch and a question leaves the
session state unchanged. -/
theorem C3_chat_history_lifecycle (env : Env) (s : Session)
    (qs : List (String × NetResult)) :
    (handleEvent env s Event.launch).1.chat_history = some []
    ∧ (runEvents env (handleEvent env s Event.launch).1
        (qs.map fun p => Event.gptQuery p.1 p.2)).chat_history
        = some (questionFold env [] qs)
    ∧ (questionFold env [] qs).length = qs.length
    ∧ (questionFold env [] qs).map Prod.fst = qs.map Prod.fst
    ∧ ∀ e : Event,
        (e = Event.launch ∨ ∃ q net, e = Event.gptQuery q net)
        ∨ (handleEvent env s e).1 = s := by
  refine ⟨rfl, ?_, ?_, ?_, ?_⟩
  · exact runEvents_gptQueries env qs []
  · simpa using questionFold_length env qs []
  · simpa using questionFold_fst env qs []
  · intro e
    cases e with
    | launch => exact Or.inl (Or.inl rfl)
    | gptQuery q net => exact Or.inl (Or.inr ⟨q, net, rfl⟩)
    | yes => exact Or.inr rfl
    | no => exact Or.inr rfl
    | help => exact Or.inr rfl
    | fallback => exact Or.inr rfl
    | cancelOrStop => exact Or.inr rfl
    | sessionEnded => exact Or.inr rfl
    | caughtException => exact Or.inr rfl

/-- C8 (amended): the Decline (No) and Cancel/Stop branches set the
end-session flag to true; the Launch, Question, Affirm, Help, Fallback and
unhandled-exception branches set it to false (each installs a re-prompt);
the Session-ended branch leaves the flag unset rather than setting it
false. -/
theorem C8_end_session_flags (env : Env) (s : Session) (q : String)
    (net : NetResult) :
    (handleEvent env s Event.no).2.shouldEndSession = some true
    ∧ (handleEvent env s Event.cancelOrStop).2.shouldEndSession = some true
    ∧ (handleEvent env s Event.launch).2.shouldEndSession = some false
    ∧ (handleEvent env s (Event.gptQuery q net)).2.shouldEndSession = some false
    ∧ (handleEvent env s Event.yes).2.shouldEndSession = some false
    ∧ (handleEvent env s Event.help).2.shouldEndSession = some false
    ∧ (handleEvent env s Event.fallback).2.shouldEndSession = some false
    ∧ (handleEvent env s Event.caughtException).2.shouldEndSession = some false
    ∧ (handleEvent env s Event.sessionEnded).2.shouldEndSession = none := by
  refine ⟨?_, ?_, ?_, ?_, ?_, ?_, ?_, ?_, rfl⟩ <;>
    simp [handleEvent, LaunchRequestHandler.handle, GptQueryIntentHandler.handle,
      YesIntentHandler.handle, NoIntentHandler.handle, HelpIntentHandler.handle,
      CancelOrStopIntentHandler.handle, FallbackIntentHandler.handle,
      CatchAllExceptionHandler.handle, add_apl_shouldEndSession, set_card,
      set_should_end_session, ask, speak, rb_init]

/-- C8 (counterexample to the claim as stated): the Session-ended branch does
not produce end-session = false; its response leaves the flag unset. -/
theorem C8_counterexample :
    (handleEvent ⟨⟨none⟩, "sk-test-123", BuildOutcome.ok⟩ ⟨none⟩
        Event.sessionEnded).2.shouldEndSession ≠ some false
    ∧ (handleEvent ⟨⟨none⟩, "sk-test-123", BuildOutcome.ok⟩ ⟨none⟩
        Event.sessionEnded).2.shouldEndSession = none := by
  exact ⟨by decide, rfl⟩

/-- C9 (amended): every handler branch except Session-ended produces a
response with a card having a non-empty title and non-empty body text and
with spoken text present; the Session-ended branch returns an empty response
with no card and no spoken text. -/
theorem C9_card_and_speech (env : Env) (s : Session) (e : Event) :
    (e ≠ Event.sessionEnded →
      ∃ c : Card, (handleEvent env s e).2.card = some c
        ∧ c.title ≠ "" ∧ c.text ≠ ""
        ∧ (handleEvent env s e).2.outputSpeech ≠ none)
    ∧ (handleEvent env s Event.sessionEnded).2.card = none
    ∧ (handleEvent env s Event.sessionEnded).2.outputSpeech = none := by
  refine ⟨?_, rfl, rfl⟩
  intro he
  cases e with
  | sessionEnded => exact absurd rfl he
  | launch =>
      refine ⟨⟨"Welcome to ChatGPT",
        "ChatGPT Mode is now active.\n\nYou can ask me any question!\n\nI'm ready to help you find answers."⟩,
        ?_, by decide, by decide, ?_⟩ <;>
        simp [handleEvent, LaunchRequestHandler.handle, add_apl_card,
          add_apl_outputSpeech, set_card, ask, speak, rb_init]
  | gptQuery q net =>
      refine ⟨⟨"ChatGPT Response",
        "Question:\n" ++ q ++ "\n\nAnswer:\n"
          ++ generate_gpt_response env.apiKey net (s.chat_history.getD []) q
          ++ "\n\nWould you like to ask another question?"⟩,
        ?_, by show ("ChatGPT Response" : String) ≠ ""; decide, ?_, ?_⟩
      · simp [handleEvent, GptQueryIntentHandler.handle, add_apl_card,
          set_card, ask, speak, rb_init]
      · intro hcontra
        have hlen := congrArg String.length hcontra
        simp [String.length_append] at hlen
        exact absurd hlen.1.1.1.1 (by decide)
      · simp [handleEvent, GptQueryIntentHandler.handle, add_apl_outputSpeech,
          set_card, ask, speak, rb_init]
  | yes =>
      refine ⟨⟨"Ask Another Question", "What would you like to know?"⟩,
        ?_, by decide, by decide, ?_⟩ <;>
        simp [handleEvent, YesIntentHandler.handle, add_apl_card,
          add_apl_outputSpeech, set_card, ask, speak, rb_init]
  | no =>
      refine ⟨⟨"Goodbye", "Thanks for chatting! Have a great day!"⟩,
        ?_, by decide, by decide, ?_⟩ <;>
        simp [handleEvent, NoIntentHandler.handle, add_apl_card,
          add_apl_outputSpeech, set_card, set_should_end_session, speak, rb_init]
  | help =>
      refine ⟨⟨"Help with ChatGPT",
        "You can ask me any question, and I'll use ChatGPT to provide an answer. Just speak your question clearly."⟩,
        ?_, by decide, by decide, ?_⟩ <;>
        simp [handleEvent, HelpIntentHandler.handle, add_apl_card,
          add_apl_outputSpeech, set_card, ask, speak, rb_init]
  | fallback =>
      refine ⟨⟨"I Didn't Understand",
        "I'm not sure what you're asking. You can ask me any question, and I'll try to provide an answer using ChatGPT."⟩,
        ?_, by decide, by decide, ?_⟩ <;>
        simp [handleEvent, FallbackIntentHandler.handle, add_apl_card,
          add_apl_outputSpeech, set_card, ask, speak, rb_init]
  | cancelOrStop =>
      refine ⟨⟨"Goodbye", "Leaving ChatGPT Mode. Thanks for chatting!"⟩,
        ?_, by decide, by decide, ?_⟩ <;>
        simp [handleEvent, CancelOrStopIntentHandler.handle, add_apl_card,
          add_apl_outputSpeech, set_card, set_should_end_session, speak, rb_init]
  | caughtException =>
      refine ⟨⟨"Error Occurred",
        "Sorry, I had trouble doing what you asked. Please try again."⟩,
        ?_, by decide, by decide, ?_⟩ <;>
        simp [handleEvent, CatchAllExceptionHandler.handle, add_apl_card,
          add_apl_outputSpeech, set_card, ask, speak, rb_init]

theorem C9_card_and_speech_witness :
    ∃ c : Card,
      (handleEvent ⟨⟨none⟩, "sk-test-123", BuildOutcome.ok⟩ ⟨none⟩
          Event.yes).2.card = some c
      ∧ c.title ≠ "" ∧ c.text ≠ ""
      ∧ (handleEvent ⟨⟨none⟩, "sk-test-123", BuildOutcome.ok⟩ ⟨none⟩
          Event.yes).2.outputSpeech ≠ none :=
  (C9_card_and_speech ⟨⟨none⟩, "sk-test-123", BuildOutcome.ok⟩ ⟨none⟩
    Event.yes).1 (by decide)

/-- C9 (counterexample to the claim as stated): the Session-ended handler
branch produces a response containing no card at all (and no spoken text),
so not every branch carries a card mirroring the speech. -/
theorem C9_counterexample :
    (handleEvent ⟨⟨none⟩, "sk-test-123", BuildOutcome.ok⟩ ⟨none⟩
        Event.sessionEnded).2.card = none
    ∧ (handleEvent ⟨⟨none⟩, "sk-test-123", BuildOutcome.ok⟩ ⟨none⟩
        Event.sessionEnded).2.outputSpeech = none :=
  ⟨rfl, rfl⟩

/-- C10: a question event appends to `chat_history` the pair of the query and
whatever string `generate_gpt_response` returned — in particular, with a
valid credential, the connection-trouble string on a non-success HTTP status
and the processing-error string on a transport exception — and any stored
answer, being the last turn of the history, is sent as an assistant message
in the next completion request. -/
theorem C10_degraded_reply_stored (env : Env) (s : Session) (q q2 : String)
    (net : NetResult) (hk : ¬(env.apiKey = "" ∨ env.apiKey = "YOUR_API_KEY")) :
    (handleEvent env s (Event.gptQuery q net)).1.chat_history
      = some (s.chat_history.getD []
          ++ [(q, generate_gpt_response env.apiKey net (s.chat_history.getD []) q)])
    ∧ (handleEvent env s
          (Event.gptQuery q (NetResult.err_resp 500 "boom"))).1.chat_history
      = some (s.chat_history.getD []
          ++ [(q, "I'm having trouble connecting right now. Please try again.")])
    ∧ (handleEvent env s (Event.gptQuery q (NetResult.exn "boom"))).1.chat_history
      = some (s.chat_history.getD []
          ++ [(q, "I encountered an error processing your request.")])
    ∧ ∀ (h : List (String × String)) (a : String),
        Message.mk "assistant" a ∈ buildMessages (h ++ [(q, a)]) q2 := by
  have hkey : get_api_key env.apiKey = Except.ok env.apiKey := by
    unfold get_api_key
    rw [if_neg hk]
  refine ⟨?_, ?_, ?_, ?_⟩
  · simp [handleEvent, GptQueryIntentHandler.handle]
  · simp [handleEvent, GptQueryIntentHandler.handle, generate_gpt_response,
      generate_gpt_response_try, hkey]
  · simp [handleEvent, GptQueryIntentHandler.handle, generate_gpt_response,
      generate_gpt_response_try, hkey]
  · intro h a
    exact assistant_mem_buildMessages h q a q2

theorem C10_degraded_reply_stored_witness :
    (handleEvent ⟨⟨none⟩, "sk-test-123", BuildOutcome.ok⟩ ⟨some [("x", "y")]⟩
        (Event.gptQuery "What is the capital of France?"
          (NetResult.err_resp 500 "boom"))).1.chat_history
      = some ([("x", "y")]
          ++ [("What is the capital of France?",
                "I'm having trouble connecting right now. Please try again.")])
    ∧ Message.mk "assistant" "I'm having trouble connecting right now. Please try again."
        ∈ buildMessages
            ([("x", "y")]
              ++ [("What is the capital of France?",
                    "I'm having trouble connecting right now. Please try again.")])
            "next question" :=
  ⟨(C10_degraded_reply_stored ⟨⟨none⟩, "sk-test-123", BuildOutcome.ok⟩
      ⟨some [("x", "y")]⟩ "What is the capital of France?" "next question"
      (NetResult.err_resp 500 "boom") (by decide)).2.1,
   (C10_degraded_reply_stored ⟨⟨none⟩, "sk-test-123", BuildOutcome.ok⟩
      ⟨some [("x", "y")]⟩ "What is the capital of France?" "next question"
      (NetResult.err_resp 500 "boom") (by decide)).2.2.2 [("x", "y")]
      "I'm having trouble connecting right now. Please try again."⟩

end AlexaGpt
